import Mathlib

/-!
Verification of the CiteMe front-end citation core: a shallow embedding of
the citation store (frontend/src/stores/citationStore.js), the citation form
actions (frontend/src/stores/useCitationFormActions.js), the request-payload
cleaner (constants/cleanCitationData.js) and the form components
(components/Forms/CitationWebForm.vue, CitationSourceForm.vue), together
with theorems about the specified behaviour.
-/

namespace CiteMe

/-! ## JavaScript value model

JSON-like values as they flow through the client: numbers are modelled as
rationals (no floating-point arithmetic is performed by the code under
study, values are only stored and forwarded), `undefined`/`null` both as
`null` where the distinction does not matter. -/

inductive JVal where
  | num  : Rat → JVal
  | str  : String → JVal
  | bool : Bool → JVal
  | null : JVal
  | arr  : List JVal → JVal
  | obj  : List (String × JVal) → JVal

/-- The denylist of UI-only keys from cleanCitationData.js
(EXCLUDED_KEYS in the source). -/
def EXCLUDED_KEYS : List String := ["showOptionalFields", "showMetadata"]

mutual
/-- Embedding of cleanCitationData (constants/cleanCitationData.js):
arrays are mapped recursively, non-null objects have the UI-only keys
skipped and the remaining values cleaned, primitives are returned as is.
In the source, `Array.isArray` is tested before `typeof data === 'object'`
and `data !== null` guards the object branch, which the constructors of
`JVal` reflect directly. -/
def cleanCitationData : JVal → JVal
  | .arr l => .arr (cleanList l)
  | .obj kvs => .obj (cleanObj kvs)
  | v => v

/-- `data.map(cleanCitationData)` on an array. -/
def cleanList : List JVal → List JVal
  | [] => []
  | v :: rest => cleanCitationData v :: cleanList rest

/-- The `for (const [key, value] of Object.entries(data))` loop:
keys in EXCLUDED_KEYS are skipped, kept values are cleaned. -/
def cleanObj : List (String × JVal) → List (String × JVal)
  | [] => []
  | (k, v) :: rest =>
      if k ∈ EXCLUDED_KEYS then cleanObj rest
      else (k, cleanCitationData v) :: cleanObj rest
end

mutual
/-- No key of EXCLUDED_KEYS occurs at any nesting level of the value. -/
def noUIKeys : JVal → Bool
  | .arr l => noUIKeysList l
  | .obj kvs => noUIKeysObj kvs
  | _ => true

def noUIKeysList : List JVal → Bool
  | [] => true
  | v :: rest => noUIKeys v && noUIKeysList rest

def noUIKeysObj : List (String × JVal) → Bool
  | [] => true
  | (k, v) :: rest => decide (k ∉ EXCLUDED_KEYS) && noUIKeys v && noUIKeysObj rest
end

/-! ## Citation form model

A source record of a citation form. The web template
(CitationWebForm.vue) carries url, authors, title, type, publishedDate,
showOptionalFields, doi, volume; the free-text template
(CitationSourceForm.vue) carries content, title, authors, url, type,
accessDate, publishedDate, showMetadata; `sourceType` is written by the
field components on update. A field a template does not initialise is
JavaScript `undefined`, which is falsy exactly like the empty string, so
every field is modelled as a `String` defaulting to `""` (and the UI
toggles as `Bool`). -/

structure FormSource where
  authors : String := ""
  title : String := ""
  sourceType : String := ""
  publishedDate : String := ""
  url : String := ""
  content : String := ""
  type : String := ""
  doi : String := ""
  volume : String := ""
  accessDate : String := ""
  showOptionalFields : Bool := false
  showMetadata : Bool := false
deriving Repr, DecidableEq

/-- The reactive form object built by useFormDataFormat.js:
sources, citationStyle, formType; CitationWebForm.vue additionally
attaches the supplementUrls flag. -/
structure CitationForm where
  sources : List FormSource
  citationStyle : String := ""
  formType : String
  supplementUrls : Bool := false
deriving Repr, DecidableEq

/-- Embedding of validateForm (useCitationFormActions.js): every source
must have truthy (non-empty) authors, title, sourceType and publishedDate;
when the hook's formType argument is the string "web", additionally a
truthy url. -/
def validateForm (formType : String) (form : CitationForm) : Bool :=
  form.sources.all fun source =>
    let baseValidation :=
      source.authors != "" && source.title != "" &&
      source.sourceType != "" && source.publishedDate != ""
    if formType == "web" then baseValidation && source.url != ""
    else baseValidation

/-! ## Durable storage (window.localStorage), as a key-value list -/

abbrev Storage := List (String × String)

def getItem (storage : Storage) (key : String) : Option String :=
  (List.find? (fun kv => kv.1 == key) storage).map (fun kv => kv.2)

def setItem (storage : Storage) (key value : String) : Storage :=
  if (List.find? (fun kv => kv.1 == key) storage).isSome then
    List.map (fun kv => if kv.1 == key then (key, value) else kv) storage
  else
    storage ++ [(key, value)]

/-! ## JSON serialization (JSON.stringify on the form object) -/

/-- Escaping of quote and backslash inside a JSON string literal
(control characters do not occur in the values under study). -/
def jsonEscapeChar (c : Char) : String :=
  if c = '"' then "\\\"" else if c = '\\' then "\\\\" else String.singleton c

def jsonEscape (s : String) : String :=
  String.join (s.data.map jsonEscapeChar)

mutual
def stringifyJVal : JVal → String
  | .num q => toString q
  | .str s => "\"" ++ jsonEscape s ++ "\""
  | .bool b => if b then "true" else "false"
  | .null => "null"
  | .arr l => "[" ++ stringifyList l ++ "]"
  | .obj kvs => "\x7b" ++ stringifyObj kvs ++ "\x7d"

def stringifyList : List JVal → String
  | [] => ""
  | [v] => stringifyJVal v
  | v :: rest => stringifyJVal v ++ "," ++ stringifyList rest

def stringifyObj : List (String × JVal) → String
  | [] => ""
  | [(k, v)] => "\"" ++ jsonEscape k ++ "\":" ++ stringifyJVal v
  | (k, v) :: rest =>
      "\"" ++ jsonEscape k ++ "\":" ++ stringifyJVal v ++ "," ++ stringifyObj rest
end

/-- A form source as the JSON object JSON.stringify serializes
(all fields, the UI-only ones included). -/
def sourceToJVal (s : FormSource) : JVal :=
  .obj [("authors", .str s.authors), ("title", .str s.title),
        ("sourceType", .str s.sourceType), ("publishedDate", .str s.publishedDate),
        ("url", .str s.url), ("content", .str s.content),
        ("type", .str s.type), ("doi", .str s.doi),
        ("volume", .str s.volume), ("accessDate", .str s.accessDate),
        ("showOptionalFields", .bool s.showOptionalFields),
        ("showMetadata", .bool s.showMetadata)]

def formToJVal (f : CitationForm) : JVal :=
  .obj [("sources", .arr (f.sources.map sourceToJVal)),
        ("citationStyle", .str f.citationStyle),
        ("formType", .str f.formType),
        ("supplementUrls", .bool f.supplementUrls)]

/-- Embedding of save (useCitationFormActions.js): returns false without
touching storage when validateForm fails; otherwise
localStorage.setItem(key, JSON.stringify(formData)) inside try/catch —
a storage write failure (modelled by `writeFails`) is caught and reported
as a false return value, with storage unchanged. -/
def save (formType : String) (form : CitationForm) (key : String)
    (storage : Storage) (writeFails : Bool) : Bool × Storage :=
  if !validateForm formType form then (false, storage)
  else if writeFails then (false, storage)
  else (true, setItem storage key (stringifyJVal (formToJVal form)))

/-- Embedding of removeSource (useCitationFormActions.js):
`sources.splice(index, 1)` guarded by `sources.length > 1`
(splice past the end removes nothing, as does List.eraseIdx). -/
def removeSource (index : Nat) (sources : List FormSource) : List FormSource :=
  if sources.length > 1 then sources.eraseIdx index else sources

/-- Embedding of the hook's addSource (useCitationFormActions.js):
an unguarded `sources.push(spread of sourceTemplate)`. -/
def addSource (sourceTemplate : FormSource) (sources : List FormSource) :
    List FormSource :=
  sources ++ [sourceTemplate]

/-- Embedding of addNewSource, the add operation the form components wire
to the add button (CitationWebForm.vue, CitationSourceForm.vue): the push
is guarded by `sources.length < effectiveMaxSources` (for the web form the
effective maximum is 3 while supplementUrls is on, else the maxSources
prop; for the free-text form it is the maxSources prop). -/
def addNewSource (effectiveMaxSources : Nat) (sourceTemplate : FormSource)
    (sources : List FormSource) : List FormSource :=
  if sources.length < effectiveMaxSources then sources ++ [sourceTemplate]
  else sources

/-! ## Mount-time hydration (onMounted of the form components) -/

/-- Strict-equality string lookup on a parsed JSON value:
`parsed.type === variant` is true iff parsed is an object whose key
"type" holds exactly that string. -/
def objGetStr (v : JVal) (key : String) : Option String :=
  match v with
  | .obj kvs =>
      match List.find? (fun kv => kv.1 == key) kvs with
      | some (_, .str s) => some s
      | _ => none
  | _ => none

/-- Embedding of the onMounted hook of CitationWebForm.vue and
CitationSourceForm.vue: read localStorage.getItem('citationFormData');
when present, JSON.parse it (`parseStored`, a parameter since parsing
arbitrary stored text is outside the model) and overwrite formData with
the parsed value iff `parsed.type === variant`; otherwise keep the
current form data. -/
def onMountedHydrate (parseStored : String → JVal) (variant : String)
    (storage : Storage) (current : JVal) : JVal :=
  match getItem storage "citationFormData" with
  | none => current
  | some stored =>
      let parsed := parseStored stored
      if objGetStr parsed "type" == some variant then parsed else current

/-! ## JavaScript string primitives

Characters matched by the regex class backslash-s, restricted to the ASCII
whitespace the document content under study contains (JavaScript also counts
some Unicode spaces; the same predicate is used consistently for trim,
split and the whitespace-removal replace, so the derived counts agree). -/

def jsIsSpace (c : Char) : Bool :=
  c = ' ' || c = '\t' || c = '\n' || c = '\r' || c = '\x0B' || c = '\x0C'

/-- The suffix after the first close-angle character, when one exists. -/
def findGt : List Char → Option (List Char)
  | [] => none
  | c :: rest => if c = '>' then some rest else findGt rest

/-- The global regex replace of tag-shaped spans by a single space, from
updateCounts in citationStore.js: `content.replace(open-angle, any run of
non-close-angle characters, close-angle, global flag; by ' ')`. Each match
runs from an open-angle character to the first close-angle after it; an
open-angle with no later close-angle stays literal (no character after it
can start a match either, since no close-angle remains). -/
def replTagsAux : List Char → List Char
  | [] => []
  | c :: rest =>
      if c = '<' then
        match h : findGt rest with
        | some after => ' ' :: replTagsAux after
        | none => c :: replTagsAux rest
      else c :: replTagsAux rest
termination_by l => l.length
decreasing_by
  · have H : ∀ l l' : List Char, findGt l = some l' → l'.length < l.length := by
      intro l
      induction l with
      | nil => intro l' hGt; simp [findGt] at hGt
      | cons a tl ih =>
          intro l' hGt
          by_cases ha : a = '>'
          · simp [findGt, ha] at hGt
            simp [← hGt]
          · simp [findGt, ha] at hGt
            exact Nat.lt_succ_of_lt (ih _ hGt)
    exact Nat.lt_succ_of_lt (H _ _ h)
  · exact Nat.lt_succ_self _
  · exact Nat.lt_succ_self _

def replTags (s : String) : String := ⟨replTagsAux s.data⟩

/-- JavaScript String.prototype.trim on the character list. -/
def jsTrimL (l : List Char) : List Char :=
  ((l.dropWhile jsIsSpace).reverse.dropWhile jsIsSpace).reverse

def jsTrim (s : String) : String := ⟨jsTrimL s.data⟩

/-- JavaScript split on runs of whitespace (the regex backslash-s plus),
accumulating the current token in reverse: `''.split` yields the
one-element list holding the empty token, a leading or trailing separator
yields an empty token at that end. -/
def splitWsAux : List Char → List Char → List (List Char)
  | [], cur => [cur.reverse]
  | c :: rest, cur =>
      if jsIsSpace c then
        cur.reverse :: splitWsAux (rest.dropWhile jsIsSpace) []
      else
        splitWsAux rest (c :: cur)
termination_by l _ => l.length
decreasing_by
  · have H : ∀ (p : Char → Bool) (l : List Char),
        (l.dropWhile p).length ≤ l.length := by
      intro p l
      induction l with
      | nil => simp
      | cons a tl ih =>
          by_cases ha : p a
          · rw [List.dropWhile_cons_of_pos ha]
            exact Nat.le_succ_of_le ih
          · rw [List.dropWhile_cons_of_neg ha]
    exact Nat.lt_succ_of_le (H _ _)
  · exact Nat.lt_succ_self _

/-- Embedding of updateCounts (citationStore.js): falsy (empty) content
zeroes both counts; otherwise tags are replaced by spaces, charCount is
the length after removing all whitespace, and wordCount is the length of
the whitespace-split of the trimmed text unless that split is one single
empty token. Returns (wordCount, charCount). -/
def updateCounts (content : String) : Nat × Nat :=
  if content = "" then (0, 0)
  else
    let plainText := replTagsAux content.data
    let charCount := (plainText.filter (fun c => !jsIsSpace c)).length
    let words := splitWsAux (jsTrimL plainText) []
    let wordCount :=
      if words.length > 1 ∨ (words.length = 1 ∧ words.headD [] ≠ []) then
        words.length
      else 0
    (wordCount, charCount)

/-! ## Citation store state (citationStore.js) -/

/-- The store's refs. previewContent.value.title is a computed alias of
documentTitle and is not separate state; previewContent is its content
array. route is the router's current path. -/
structure CitationState where
  isCitationLoading : Bool := false
  disableCiteMeBtn : Bool := false
  documentTitle : String := ""
  editorContent : String := ""
  credibilityScore : Rat := 0
  sources : List JVal := []
  previewContent : List String := []
  route : String := ""

/-- The response body of POST /citation/get_citation as the store reads
it: data.result.formatted_text, data.result.references, data.overall_score,
data.sources. -/
structure CitationResult where
  formatted_text : String := ""
  references : String := ""

structure CitationResponse where
  result : CitationResult
  overall_score : Rat := 0
  sources : List JVal := []

/-- What one run of generateCitations produced: the final store state, the
error toasts shown (in order), the payload of the network request when one
was sent, and whether the loading flags were ever set during the run. -/
structure GenResult where
  state : CitationState
  toasts : List String
  payload : Option JVal
  loadingWasSet : Bool

/-- Whether a network request was sent during the run. -/
def GenResult.requestSent (r : GenResult) : Bool := r.payload.isSome

def toLowerAscii (s : String) : String := ⟨s.data.map Char.toLower⟩

/-- One JS object-key update as used by the object spread with literal
keys: an existing key keeps its position and gets the new value, a new key
is appended. -/
def objSet (kvs : List (String × JVal)) (key : String) (v : JVal) :
    List (String × JVal) :=
  if (List.find? (fun kv => kv.1 == key) kvs).isSome then
    List.map (fun kv => if kv.1 == key then (key, v) else kv) kvs
  else kvs ++ [(key, v)]

/-- The request body of generateCitations: the stored form data spread
into a fresh object together with title (the preview title, an alias of
documentTitle), content (the raw editor markup) and citationStyle, then
passed through cleanCitationData. -/
def buildRequest (formData : List (String × JVal))
    (title content citationStyle : String) : JVal :=
  cleanCitationData (.obj
    (objSet (objSet (objSet formData "title" (.str title))
      "content" (.str content)) "citationStyle" (.str citationStyle)))

/-- Embedding of generateCitations (citationStore.js).

Parameters standing for the run's environment: `stripHTML` is the
DOM-based tag stripper of the store (it reads textContent of a detached
element, so it is a parameter rather than a definition); `parseJson`
models JSON.parse on the stored form string, yielding the parsed object's
entries or a thrown error; `response` is the outcome of the awaited
axios.post (a thrown network error or non-2xx, or the response data).

The run: (1) empty-after-trim title ⇒ toast and return; (2) unless the
selected form name lowercases to 'citationautoform', an
empty-after-strip-and-trim editor content, then a missing stored form
entry, each ⇒ toast and return — all before the try block, so the loading
flags are untouched and nothing is sent. Then the flags are set, the form
data is parsed ('auto' forms use the literal object formType: 'auto'), the
cleaned payload is posted, and on success previewContent, credibilityScore
and sources are assigned and the router navigates to /preview; any thrown
error is caught with a generic toast; the finally clause clears both
flags on every path through the try. -/
def generateCitations (stripHTML : String → String)
    (parseJson : String → Except Unit (List (String × JVal)))
    (selectedForm citationStyle : String)
    (st : CitationState) (storage : Storage)
    (response : Except Unit CitationResponse) : GenResult :=
  if jsTrim st.documentTitle == "" then
    ⟨st, ["Document title is required"], none, false⟩
  else
    let isAutoForm := toLowerAscii selectedForm == "citationautoform"
    let storedFormData := getItem storage selectedForm
    if !isAutoForm && jsTrim (stripHTML st.editorContent) == "" then
      ⟨st, ["Please add some content to cite"], none, false⟩
    else if !isAutoForm && storedFormData.isNone then
      ⟨st, ["Please select a citation source"], none, false⟩
    else
      let formDataE : Except Unit (List (String × JVal)) :=
        if isAutoForm then .ok [("formType", .str "auto")]
        else match storedFormData with
          | some s => parseJson s
          | none => .ok []
      match formDataE with
      | .error _ =>
          ⟨{ st with isCitationLoading := false, disableCiteMeBtn := false },
           ["Error generating citations. Please try again."], none, true⟩
      | .ok formData =>
          let requestData :=
            buildRequest formData st.documentTitle st.editorContent citationStyle
          match response with
          | .error _ =>
              ⟨{ st with isCitationLoading := false, disableCiteMeBtn := false },
               ["Error generating citations. Please try again."],
               some requestData, true⟩
          | .ok data =>
              ⟨{ st with
                   previewContent := [data.result.formatted_text,
                                      data.result.references],
                   credibilityScore := data.overall_score,
                   sources := data.sources,
                   route := "/preview",
                   isCitationLoading := false, disableCiteMeBtn := false },
               [], some requestData, true⟩

/-- JavaScript string coercion of a possibly-undefined value in string
concatenation: undefined renders as the text "undefined". -/
def jsStr : Option String → String
  | some s => s
  | none => "undefined"

/-- Embedding of editPreview (citationStore.js): destructure
previewContent.value.content into its first two elements (undefined when
absent), assign their concatenation around the References heading to
editorContent, and navigate to the editor view. -/
def editPreview (st : CitationState) : CitationState :=
  { st with
      editorContent := jsStr st.previewContent[0]? ++ "<h2>References</h2>" ++
        jsStr st.previewContent[1]?,
      route := "/editor" }

/-! ## Concrete inputs used by the example parts of the claims -/

/-- The nested example value of the stripping property. -/
def c6Input : JVal :=
  .obj [("a", .num 1), ("showOptionalFields", .bool true),
        ("b", .arr [.obj [("showMetadata", .bool false), ("c", .num 2)]])]

/-- The expected cleaned value of the stripping property. -/
def c6Output : JVal :=
  .obj [("a", .num 1), ("b", .arr [.obj [("c", .num 2)]])]

/-- A free-text source whose base fields are filled but whose content (and
url) are empty. -/
def c2Source : FormSource :=
  { authors := "John Doe", title := "Essay", sourceType := "book",
    publishedDate := "2024-01-01" }

/-- A free-text (formType source) form holding only c2Source. -/
def c2Form : CitationForm := { sources := [c2Source], formType := "source" }

/-- A fully filled web source (all base fields and url non-empty). -/
def c9Source : FormSource :=
  { authors := "Jane Doe", title := "Example Page", sourceType := "website",
    publishedDate := "2024-01-01", url := "https://www.example.com" }

/-- A valid web form holding only c9Source. -/
def c9Form : CitationForm := { sources := [c9Source], formType := "web" }

/-! ## Helper lemmas -/

mutual
theorem noUIKeys_clean : ∀ v : JVal, noUIKeys (cleanCitationData v) = true
  | .num _ => rfl
  | .str _ => rfl
  | .bool _ => rfl
  | .null => rfl
  | .arr l => by
      simp only [cleanCitationData, noUIKeys]
      exact noUIKeysList_clean l
  | .obj kvs => by
      simp only [cleanCitationData, noUIKeys]
      exact noUIKeysObj_clean kvs

theorem noUIKeysList_clean : ∀ l : List JVal, noUIKeysList (cleanList l) = true
  | [] => rfl
  | v :: rest => by
      simp only [cleanList, noUIKeysList, Bool.and_eq_true]
      exact ⟨noUIKeys_clean v, noUIKeysList_clean rest⟩

theorem noUIKeysObj_clean :
    ∀ kvs : List (String × JVal), noUIKeysObj (cleanObj kvs) = true
  | [] => rfl
  | (k, v) :: rest => by
      by_cases hk : k ∈ EXCLUDED_KEYS
      · simp only [cleanObj, if_pos hk]
        exact noUIKeysObj_clean rest
      · simp only [cleanObj, if_neg hk, noUIKeysObj, Bool.and_eq_true]
        exact ⟨⟨by simpa using hk, noUIKeys_clean v⟩, noUIKeysObj_clean rest⟩
end

theorem cleanList_eq_map : ∀ l, cleanList l = l.map cleanCitationData
  | [] => rfl
  | v :: rest => by simp [cleanList, cleanList_eq_map rest]

theorem cleanObj_eq_filter : ∀ kvs : List (String × JVal), cleanObj kvs =
    (kvs.filter (fun kv => decide (kv.1 ∉ EXCLUDED_KEYS))).map
      (fun kv => (kv.1, cleanCitationData kv.2))
  | [] => rfl
  | (k, v) :: rest => by
      by_cases hk : k ∈ EXCLUDED_KEYS <;>
        simp [cleanObj, hk, List.filter, cleanObj_eq_filter rest]

theorem splitWsAux_head_shape (l cur : List Char) :
    ∃ t ts u, splitWsAux l cur = t :: ts ∧ t = cur.reverse ++ u := by
  induction l, cur using splitWsAux.induct with
  | case1 cur =>
      exact ⟨cur.reverse, [], [], by simp [splitWsAux], by simp⟩
  | case2 c rest cur hsp ih =>
      exact ⟨cur.reverse, splitWsAux (rest.dropWhile jsIsSpace) [], [],
        by simp [splitWsAux, hsp], by simp⟩
  | case3 c rest cur hsp ih =>
      obtain ⟨t, ts, u, ht, hu⟩ := ih
      refine ⟨t, ts, c :: u, ?_, ?_⟩
      · simp [splitWsAux, hsp, ht]
      · simp [hu]

theorem splitWs_first_token_ne_nil (c : Char) (rest : List Char)
    (hc : jsIsSpace c = false) :
    ∃ t ts, splitWsAux (c :: rest) [] = t :: ts ∧ t ≠ [] := by
  obtain ⟨t, ts, u, ht, hu⟩ := splitWsAux_head_shape rest [c]
  refine ⟨t, ts, ?_, ?_⟩
  · rw [show splitWsAux (c :: rest) [] = splitWsAux rest [c] by
      simp [splitWsAux, hc]]
    exact ht
  · simp [hu]

theorem dropWhile_head_false (p : Char → Bool) :
    ∀ (l : List Char) (c : Char) (rest : List Char),
      l.dropWhile p = c :: rest → p c = false := by
  intro l
  induction l with
  | nil => intro c rest h; simp at h
  | cons a tl ih =>
      intro c rest h
      by_cases hpa : p a
      · rw [List.dropWhile_cons_of_pos hpa] at h
        exact ih c rest h
      · rw [List.dropWhile_cons_of_neg hpa] at h
        cases h
        simpa using hpa

theorem dropWhile_exists_append (p : Char → Bool) :
    ∀ l : List Char, ∃ pre, l = pre ++ l.dropWhile p := by
  intro l
  induction l with
  | nil => exact ⟨[], rfl⟩
  | cons a tl ih =>
      by_cases hpa : p a
      · obtain ⟨pre, hpre⟩ := ih
        exact ⟨a :: pre, by rw [List.dropWhile_cons_of_pos hpa]; simpa using hpre⟩
      · exact ⟨[], by rw [List.dropWhile_cons_of_neg hpa]; simp⟩

theorem jsTrimL_head_not_space (l : List Char) (c : Char) (rest : List Char)
    (h : jsTrimL l = c :: rest) : jsIsSpace c = false := by
  unfold jsTrimL at h
  obtain ⟨pre, hpre⟩ :=
    dropWhile_exists_append jsIsSpace (l.dropWhile jsIsSpace).reverse
  have hd : l.dropWhile jsIsSpace =
      ((l.dropWhile jsIsSpace).reverse.dropWhile jsIsSpace).reverse ++
        pre.reverse := by
    have := congrArg List.reverse hpre
    simpa [List.reverse_append] using this
  rw [h] at hd
  exact dropWhile_head_false jsIsSpace l c (rest ++ pre.reverse) (by simpa using hd)

/-! ## The claims -/

/-- Claim C1 (confirmed): whenever the document title trims to empty, or
the selected form is not the auto variant and either the stripped editor
content trims to empty or no stored form data exists under the selected
form key, generateCitations emits an error toast, sends no network
request, never sets the loading flags, and leaves the state untouched. -/
theorem generateCitations_fails_fast (stripHTML : String → String)
    (parseJson : String → Except Unit (List (String × JVal)))
    (selectedForm citationStyle : String)
    (st : CitationState) (storage : Storage)
    (response : Except Unit CitationResponse)
    (h : jsTrim st.documentTitle = "" ∨
         (toLowerAscii selectedForm ≠ "citationautoform" ∧
           (jsTrim (stripHTML st.editorContent) = "" ∨
            getItem storage selectedForm = none))) :
    (generateCitations stripHTML parseJson selectedForm citationStyle st storage
        response).toasts ≠ [] ∧
    (generateCitations stripHTML parseJson selectedForm citationStyle st storage
        response).requestSent = false ∧
    (generateCitations stripHTML parseJson selectedForm citationStyle st storage
        response).loadingWasSet = false ∧
    (generateCitations stripHTML parseJson selectedForm citationStyle st storage
        response).state = st := by
  by_cases h1 : jsTrim st.documentTitle = ""
  · simp [generateCitations, h1, GenResult.requestSent]
  · obtain ⟨hauto, hrest⟩ := h.resolve_left h1
    have hauto' : (toLowerAscii selectedForm == "citationautoform") = false := by
      simpa using hauto
    by_cases h2 : jsTrim (stripHTML st.editorContent) = ""
    · simp [generateCitations, h1, hauto', h2, GenResult.requestSent]
    · have h3 : getItem storage selectedForm = none := hrest.resolve_left h2
      simp [generateCitations, h1, hauto', h2, h3, GenResult.requestSent]

/-- Witness for C1: a whitespace-only title with non-empty content is
rejected with a toast, no request and no loading. -/
theorem generateCitations_fails_fast_witness :
    (generateCitations (fun s => s) (fun _ => .ok []) "CitationWebForm" "APA"
        { documentTitle := "   ", editorContent := "<p>Hi</p>" } []
        (.error ())).toasts ≠ [] ∧
    (generateCitations (fun s => s) (fun _ => .ok []) "CitationWebForm" "APA"
        { documentTitle := "   ", editorContent := "<p>Hi</p>" } []
        (.error ())).requestSent = false ∧
    (generateCitations (fun s => s) (fun _ => .ok []) "CitationWebForm" "APA"
        { documentTitle := "   ", editorContent := "<p>Hi</p>" } []
        (.error ())).loadingWasSet = false ∧
    (generateCitations (fun s => s) (fun _ => .ok []) "CitationWebForm" "APA"
        { documentTitle := "   ", editorContent := "<p>Hi</p>" } []
        (.error ())).state =
      { documentTitle := "   ", editorContent := "<p>Hi</p>" } :=
  generateCitations_fails_fast (fun s => s) (fun _ => .ok []) "CitationWebForm"
    "APA" { documentTitle := "   ", editorContent := "<p>Hi</p>" } [] (.error ())
    (Or.inl (by decide))

/-- Claim C2, corrected: validateForm is false iff some source misses a
required field, where the required fields are the base fields for every
variant plus url for the web variant; content is NOT required by
validateForm for the free-text variant (see the counterexample). -/
theorem validateForm_false_iff (formType : String) (form : CitationForm) :
    validateForm formType form = false ↔
      ∃ s ∈ form.sources, s.authors = "" ∨ s.title = "" ∨ s.sourceType = "" ∨
        s.publishedDate = "" ∨ (formType = "web" ∧ s.url = "") := by
  constructor
  · intro h
    obtain ⟨s, hs, hP⟩ := List.all_eq_false.mp h
    refine ⟨s, hs, ?_⟩
    by_cases hw : formType = "web" <;>
      simp only [hw, if_pos, if_neg, beq_self_eq_true, beq_iff_eq,
        Bool.and_eq_true, bne_iff_ne, ne_eq, if_true, if_false, not_and_or,
        not_not] at hP <;> tauto
  · rintro ⟨s, hs, hP⟩
    refine List.all_eq_false.mpr ⟨s, hs, ?_⟩
    by_cases hw : formType = "web" <;>
      simp only [hw, beq_self_eq_true, beq_iff_eq, Bool.and_eq_true,
        bne_iff_ne, ne_eq, if_true, if_false, not_and_or, not_not] <;> tauto

/-- Counterexample to C2 as stated: a free-text form whose single source
has all base fields filled but empty content passes validateForm, while
the claim (content required for the free-text variant) demands false. -/
theorem validateForm_content_cex :
    ¬ (validateForm "source" c2Form = false ↔
       ∃ s ∈ c2Form.sources, s.authors = "" ∨ s.title = "" ∨ s.sourceType = "" ∨
         s.publishedDate = "" ∨ s.content = "") := by decide

/-- Claim C3 (confirmed): when the network call was made and failed, the
generic toast is shown, previewContent, credibilityScore, sources and
editorContent are exactly as before the call, and both loading flags are
cleared at the end of the run. -/
theorem generateCitations_failure_frame (stripHTML : String → String)
    (parseJson : String → Except Unit (List (String × JVal)))
    (selectedForm citationStyle : String)
    (st : CitationState) (storage : Storage)
    (h : (generateCitations stripHTML parseJson selectedForm citationStyle st
        storage (.error ())).requestSent = true) :
    (generateCitations stripHTML parseJson selectedForm citationStyle st storage
        (.error ())).state.previewContent = st.previewContent ∧
    (generateCitations stripHTML parseJson selectedForm citationStyle st storage
        (.error ())).state.credibilityScore = st.credibilityScore ∧
    (generateCitations stripHTML parseJson selectedForm citationStyle st storage
        (.error ())).state.sources = st.sources ∧
    (generateCitations stripHTML parseJson selectedForm citationStyle st storage
        (.error ())).state.editorContent = st.editorContent ∧
    (generateCitations stripHTML parseJson selectedForm citationStyle st storage
        (.error ())).state.isCitationLoading = false ∧
    (generateCitations stripHTML parseJson selectedForm citationStyle st storage
        (.error ())).state.disableCiteMeBtn = false ∧
    (generateCitations stripHTML parseJson selectedForm citationStyle st storage
        (.error ())).toasts = ["Error generating citations. Please try again."] := by
  by_cases h1 : jsTrim st.documentTitle = ""
  · simp [generateCitations, h1, GenResult.requestSent] at h
  · by_cases hauto : toLowerAscii selectedForm = "citationautoform"
    · simp [generateCitations, h1, hauto]
    · have hauto' : (toLowerAscii selectedForm == "citationautoform") = false := by
        simpa using hauto
      by_cases h2 : jsTrim (stripHTML st.editorContent) = ""
      · simp [generateCitations, h1, hauto', h2, GenResult.requestSent] at h
      · by_cases h3 : getItem storage selectedForm = none
        · simp [generateCitations, h1, hauto', h2, h3, GenResult.requestSent] at h
        · obtain ⟨s, hs⟩ := Option.ne_none_iff_exists'.mp h3
          cases hp : parseJson s with
          | error e =>
              simp [generateCitations, h1, hauto', h2, hs, hp,
                GenResult.requestSent] at h
          | ok fd =>
              simp [generateCitations, h1, hauto', h2, hs, hp]

/-- Witness for C3: an auto-variant run with a failing call keeps the
document state and clears the flags. -/
theorem generateCitations_failure_frame_witness :
    (generateCitations (fun s => s) (fun _ => .ok []) "CitationAutoForm" "APA"
        { documentTitle := "My Doc" } [] (.error ())).state.previewContent =
      ({ documentTitle := "My Doc" } : CitationState).previewContent ∧
    (generateCitations (fun s => s) (fun _ => .ok []) "CitationAutoForm" "APA"
        { documentTitle := "My Doc" } [] (.error ())).state.credibilityScore =
      ({ documentTitle := "My Doc" } : CitationState).credibilityScore ∧
    (generateCitations (fun s => s) (fun _ => .ok []) "CitationAutoForm" "APA"
        { documentTitle := "My Doc" } [] (.error ())).state.sources =
      ({ documentTitle := "My Doc" } : CitationState).sources ∧
    (generateCitations (fun s => s) (fun _ => .ok []) "CitationAutoForm" "APA"
        { documentTitle := "My Doc" } [] (.error ())).state.editorContent =
      ({ documentTitle := "My Doc" } : CitationState).editorContent ∧
    (generateCitations (fun s => s) (fun _ => .ok []) "CitationAutoForm" "APA"
        { documentTitle := "My Doc" } [] (.error ())).state.isCitationLoading =
      false ∧
    (generateCitations (fun s => s) (fun _ => .ok []) "CitationAutoForm" "APA"
        { documentTitle := "My Doc" } [] (.error ())).state.disableCiteMeBtn =
      false ∧
    (generateCitations (fun s => s) (fun _ => .ok []) "CitationAutoForm" "APA"
        { documentTitle := "My Doc" } [] (.error ())).toasts =
      ["Error generating citations. Please try again."] :=
  generateCitations_failure_frame (fun s => s) (fun _ => .ok [])
    "CitationAutoForm" "APA" { documentTitle := "My Doc" } [] (by decide)

/-- Claim C4 (confirmed): for a preview whose content is the two-element
sequence of body and references, the edit action sets editorContent to
body, the References heading and references concatenated, and navigates
to the editor view. -/
theorem editPreview_roundtrip (st : CitationState) (body refs : String)
    (h : st.previewContent = [body, refs]) :
    (editPreview st).editorContent = body ++ "<h2>References</h2>" ++ refs ∧
    (editPreview st).route = "/editor" := by
  simp [editPreview, h, jsStr]

/-- Witness for C4: with body p-A and references p-B the editor content
becomes the concatenation named in the claim. -/
theorem editPreview_roundtrip_witness :
    ((editPreview { previewContent := ["<p>A</p>", "<p>B</p>"] }).editorContent =
      "<p>A</p>" ++ "<h2>References</h2>" ++ "<p>B</p>" ∧
     (editPreview { previewContent := ["<p>A</p>", "<p>B</p>"] }).route =
       "/editor") ∧
    (editPreview { previewContent := ["<p>A</p>", "<p>B</p>"] }).editorContent =
      "<p>A</p><h2>References</h2><p>B</p>" :=
  ⟨editPreview_roundtrip { previewContent := ["<p>A</p>", "<p>B</p>"] }
      "<p>A</p>" "<p>B</p>" rfl,
   by decide⟩

/-- Claim C5 (confirmed): after updateCounts the word count is zero iff
the tag-stripped, whitespace-trimmed text of the markup is empty. -/
theorem wordCount_zero_iff (m : String) :
    (updateCounts m).1 = 0 ↔ jsTrim (replTags m) = "" := by
  by_cases hm : m = ""
  · subst hm
    constructor
    · intro _
      show (⟨jsTrimL (replTagsAux [])⟩ : String) = ""
      simp [replTagsAux, jsTrimL]
    · intro _
      simp [updateCounts]
  · have hstr : jsTrim (replTags m) = "" ↔ jsTrimL (replTagsAux m.data) = [] := by
      constructor
      · intro h
        exact congrArg String.data h
      · intro h
        show (⟨jsTrimL (replTagsAux m.data)⟩ : String) = ""
        rw [h]
    rw [hstr]
    unfold updateCounts
    rw [if_neg hm]
    simp only []
    cases ht : jsTrimL (replTagsAux m.data) with
    | nil =>
        simp [ht, splitWsAux]
    | cons c rest =>
        have hc := jsTrimL_head_not_space (replTagsAux m.data) c rest ht
        obtain ⟨t, ts, heq, htne⟩ := splitWs_first_token_ne_nil c rest hc
        rw [heq]
        cases ts with
        | nil => simp [htne]
        | cons t2 ts2 => simp

/-- Claim C6 (confirmed): cleanCitationData passes primitives through
unchanged, maps arrays element-wise, filters the UI-only keys out of
objects while cleaning the kept values, leaves no UI-only key at any
nesting level, and maps the example input to the example output. -/
theorem cleanCitationData_spec :
    (∀ q, cleanCitationData (.num q) = .num q) ∧
    (∀ s, cleanCitationData (.str s) = .str s) ∧
    (∀ b, cleanCitationData (.bool b) = .bool b) ∧
    cleanCitationData .null = .null ∧
    (∀ l, cleanCitationData (.arr l) = .arr (l.map cleanCitationData)) ∧
    (∀ kvs, cleanCitationData (.obj kvs) =
      .obj ((kvs.filter (fun kv => decide (kv.1 ∉ EXCLUDED_KEYS))).map
        (fun kv => (kv.1, cleanCitationData kv.2)))) ∧
    (∀ v, noUIKeys (cleanCitationData v) = true) ∧
    cleanCitationData c6Input = c6Output := by
  refine ⟨fun _ => rfl, fun _ => rfl, fun _ => rfl, rfl, ?_, ?_,
    noUIKeys_clean, rfl⟩
  · intro l
    simp [cleanCitationData, cleanList_eq_map]
  · intro kvs
    simp [cleanCitationData, cleanObj_eq_filter]

/-- Claim C7 (confirmed): starting from a source list within bounds, the
guarded add operation of the form components and removeSource keep the
length between 1 and the maximum; the add is a no-op at the maximum and
removeSource is a no-op at one source. -/
theorem sources_count_bounds (maxS : Nat) (t : FormSource)
    (sources : List FormSource) (i : Nat)
    (h1 : 1 ≤ sources.length) (h2 : sources.length ≤ maxS) :
    (1 ≤ (addNewSource maxS t sources).length ∧
      (addNewSource maxS t sources).length ≤ maxS) ∧
    (1 ≤ (removeSource i sources).length ∧
      (removeSource i sources).length ≤ maxS) ∧
    (sources.length = maxS → addNewSource maxS t sources = sources) ∧
    (sources.length = 1 → removeSource i sources = sources) := by
  refine ⟨⟨?_, ?_⟩, ⟨?_, ?_⟩, ?_, ?_⟩
  · unfold addNewSource
    split
    · simp
    · exact h1
  · unfold addNewSource
    split
    · next hlt => simpa using hlt
    · exact h2
  · unfold removeSource
    split
    · next hgt =>
        by_cases hi : i < sources.length
        · rw [List.length_eraseIdx_of_lt hi]; omega
        · rw [List.eraseIdx_eq_self.mpr (by omega)]; exact h1
    · exact h1
  · unfold removeSource
    split
    · exact Nat.le_trans (List.length_eraseIdx_le _ _) h2
    · exact h2
  · intro hmax
    unfold addNewSource
    rw [if_neg (by omega)]
  · intro hone
    unfold removeSource
    rw [if_neg (by omega)]

/-- Witness for C7: one default source under a maximum of seven. -/
theorem sources_count_bounds_witness :
    (1 ≤ (addNewSource 7 ({} : FormSource) [({} : FormSource)]).length ∧
      (addNewSource 7 ({} : FormSource) [({} : FormSource)]).length ≤ 7) ∧
    (1 ≤ (removeSource 0 [({} : FormSource)]).length ∧
      (removeSource 0 [({} : FormSource)]).length ≤ 7) ∧
    ([({} : FormSource)].length = 7 →
      addNewSource 7 ({} : FormSource) [({} : FormSource)] =
        [({} : FormSource)]) ∧
    ([({} : FormSource)].length = 1 →
      removeSource 0 [({} : FormSource)] = [({} : FormSource)]) :=
  sources_count_bounds 7 {} [{}] 0 (by decide) (by decide)

/-- Claim C8 (confirmed): save returns false and leaves storage unchanged
when validation fails; a storage write failure is caught and reported as a
false return with storage unchanged; otherwise the whole serialized form
is stored under the key and save returns true. -/
theorem save_spec (formType : String) (form : CitationForm) (key : String)
    (storage : Storage) (writeFails : Bool) :
    (validateForm formType form = false →
       save formType form key storage writeFails = (false, storage)) ∧
    (writeFails = true →
       (save formType form key storage writeFails).1 = false ∧
       (save formType form key storage writeFails).2 = storage) ∧
    (validateForm formType form = true → writeFails = false →
       save formType form key storage writeFails =
         (true, setItem storage key (stringifyJVal (formToJVal form)))) := by
  refine ⟨?_, ?_, ?_⟩
  · intro h
    simp [save, h]
  · intro h
    by_cases hv : validateForm formType form <;> simp [save, hv, h]
  · intro hv hw
    simp [save, hv, hw]

/-- Claim C9 (code bug): a valid web form saved through save lands under
the key CitationwebForm, but the mount hook reads the fixed key
citationFormData (which nothing writes) and compares the field named type
(saved forms carry formType), so the saved form is never rehydrated: for
every parse function and every current form value, hydration after the
save returns the current value unchanged. -/
theorem savedWebForm_not_rehydrated (parseStored : String → JVal)
    (current : JVal) :
    (save "web" c9Form "CitationwebForm" [] false).1 = true ∧
    onMountedHydrate parseStored "web"
      (save "web" c9Form "CitationwebForm" [] false).2 current = current := by
  constructor
  · decide
  · have hnone : getItem (save "web" c9Form "CitationwebForm" [] false).2
        "citationFormData" = none := by decide
    simp [onMountedHydrate, hnone]

/-- Claim C10 (confirmed): the edit action on an empty preview content
does not fail: both destructured parts are undefined, editorContent
becomes the literal undefined-heading-undefined string and the view still
goes to the editor. -/
theorem editPreview_empty_content (st : CitationState)
    (h : st.previewContent = []) :
    (editPreview st).editorContent = "undefined<h2>References</h2>undefined" ∧
    (editPreview st).route = "/editor" := by
  refine ⟨?_, rfl⟩
  simp only [editPreview, h]
  decide

/-- Witness for C10: the empty preview state itself. -/
theorem editPreview_empty_content_witness :
    (editPreview { previewContent := ([] : List String) }).editorContent =
      "undefined<h2>References</h2>undefined" ∧
    (editPreview { previewContent := ([] : List String) }).route = "/editor" :=
  editPreview_empty_content { previewContent := [] } rfl

end CiteMe
